import Mathlib

/-!
Verification development for the neko interpreter (alihsaas/neko).

The Rust sources are shallowly embedded: pure functions become Lean
functions; the interpreter's mutable state (the environment heap rooted in
`Rc<RefCell<Enviroment>>` aliases, the semantic analyzer's scope chain, and
the interpreter options) becomes an explicit `State` record threaded through
the visitors.  Machine numbers (`f64`) are modelled as `ℚ`; the claims
settled here only involve exact small values, sign tests and integrality
tests, which `ℚ` reflects faithfully (transcendental `powf` and IEEE
infinities/NaN are outside the rational model and outside every claim).
Rust `HashMap`s become association lists with insert-replaces semantics.
`Rc<RefCell<Enviroment>>` handles become indices into an append-only heap of
environment nodes, so closure capture and aliased mutation behave exactly as
the reference-counted cells do.  Nontermination of user programs is handled
with a fuel parameter; exhausted fuel yields the distinguished `Res.timeout`
result, never confused with one of the interpreter's `NekoError`s.
-/

namespace Neko

/-! ## Tokens (token.rs, extended with the variants constructed by lexer.rs,
parser.rs and interpreter.rs).

`token.rs` in the snapshot declares only `Keyword::Let`, yet `lexer.rs`
constructs `Keyword::Function`, `Token::Boolean`, `Token::Identifier`,
`Operator::Not` etc., and `parser.rs`/`interpreter.rs` match on
`Keyword::And`/`Keyword::Or`; the variant set below is the union actually
used by those files.  `let` is a Lean reserved word, so `Keyword::Let` is
rendered `letKw`. -/

inductive Operator where
  | plus | minus | mul | div | modulus | exponent
  | equal | plusEqual | minusEqual | mulEqual | divEqual | modulusEqual | exponentEqual
  | doubleEqual | notEqual | greaterThan | greaterThanOrEqual | lessThan | lessThanOrEqual
  | not | pipe | doublePipe
  deriving DecidableEq, Repr

inductive Keyword where
  | letKw | function | and | or | none
  deriving DecidableEq, Repr

inductive Token where
  | number (n : ℚ)
  | string (s : String)
  | boolean (b : Bool)
  | identifier (name : String)
  | operator (op : Operator)
  | keyword (k : Keyword)
  | lparen | rparen | lbrace | rbrace | comma | semicolon | endOfFile | unknown
  deriving DecidableEq, Repr

/-- lexer.rs lines 38–48: classification of an identifier-shaped word (a
letter/underscore followed by letters/digits/underscores, as collected by
`parse_word`) into its token.  The match arms appear in source order:
`let`, `true`, `false`, `not`, `function`, catch-all identifier. -/
def lex_word_token (word : String) : Token :=
  if word = "let" then .keyword .letKw
  else if word = "true" then .boolean true
  else if word = "false" then .boolean false
  else if word = "not" then .operator .not
  else if word = "function" then .keyword .function
  else .identifier word

/-! ## AST (ast.rs).  The payload structs (`BinOperator`, `Lambda`, …) are
flattened into constructor arguments of the single `Node` inductive. -/

inductive Node where
  | number (n : ℚ)
  | string (s : String)
  | boolean (b : Bool)
  | identifier (name : String)
  | compound (nodes : List Node)
  | block (nodes : List Node)
  | lambda (id : String) (params : List String) (body : Node)
  | object (fields : List (String × Node))
  | none
  | index (target : Node) (key : String)
  | functionDecleration (name : String) (params : List String) (body : Node)
  | functionCall (callee : Node) (arguments : List Node)
  | variabeDecleration (identifier : String) (value : Option Node)
  | assignmentExpr (identifier : String) (value : Node)
  | setPropertyExpr (target : Node) (key : String) (value : Node)
  | binOperator (left : Node) (operator : Token) (right : Node)
  | unaryOperator (operator : Token) (expression : Node)
  | expression (inner : Node)
  deriving BEq

/-! ## Values and environments (enviroment.rs).

`Value::Object` is omitted: `interpreter.rs` never constructs it and its own
`to_bool` match does not even cover it.  A `FunctionType::BuiltIn` carries
its name; the two built-in native functions (`print`, `error`) are
dispatched by name in `built_in_apply` below.  The `Env` handle
(`Rc<RefCell<Enviroment>>`) becomes a heap index. -/

inductive FunctionType where
  | function (name : String) (params : List String) (body : Node)
  | lambda (id : String) (params : List String) (body : Node)
  | builtIn (name : String)
  deriving BEq

/- The derived `BEq` mirrors the derived `PartialEq` in Rust structurally
(used by the evaluator for `==`/`!=`).  A captured environment is compared
by heap index where Rust compares the pointed-to environments; no claim
compares function values. -/
inductive Value where
  | number (n : ℚ)
  | boolean (b : Bool)
  | string (s : String)
  | function (ft : FunctionType) (env : Nat)
  | none
  deriving BEq

inductive NekoError where
  | syntaxError (msg : String)
  | referenceError (msg : String)
  | typeError (msg : String)
  | unknownError (msg : String)
  deriving DecidableEq, Repr

/-- Association-list analogue of `HashMap::remove`. -/
def listRemove {α : Type} (l : List (String × α)) (k : String) : List (String × α) :=
  l.filter (fun p => p.1 != k)

/-- Association-list analogue of `HashMap::insert` (replaces an existing key). -/
def listInsert {α : Type} (l : List (String × α)) (k : String) (v : α) : List (String × α) :=
  (k, v) :: listRemove l k

/-- Association-list analogue of `HashMap::get`. -/
def listGet {α : Type} (l : List (String × α)) (k : String) : Option α :=
  (l.find? (fun p => p.1 == k)).map (fun p => p.2)

structure Enviroment where
  values : List (String × Value)
  enclosing_enviroment : Option Nat
  deriving BEq

abbrev Heap := List Enviroment

/-- `Enviroment::look_up` (enviroment.rs lines 43–53), lifted to the heap of
environment nodes.  The fuel argument bounds the parent walk; callers pass
the heap size, which suffices because every parent link points to an
environment created earlier (a strictly smaller index). -/
def env_look_up (h : Heap) : Nat → Nat → String → Bool → Option Value
  | 0, _, _, _ => Option.none
  | fuel + 1, i, name, current_env_only =>
    match h[i]? with
    | Option.none => Option.none
    | Option.some env =>
      match listGet env.values name with
      | Option.some v => Option.some v
      | Option.none =>
        if current_env_only then Option.none
        else
          match env.enclosing_enviroment with
          | Option.some p => env_look_up h fuel p name false
          | Option.none => Option.none

/-- `Enviroment::assign` (enviroment.rs lines 55–64): walk parents and update
in place; error if the name is bound nowhere on the chain. -/
def env_assign (h : Heap) : Nat → Nat → String → Value → Except String Heap
  | 0, _, name, _ =>
    Except.error (("Attempt to assign to undefined variable ") ++ name)
  | fuel + 1, i, name, v =>
    match h[i]? with
    | Option.none => Except.error (("Attempt to assign to undefined variable ") ++ name)
    | Option.some env =>
      if (listGet env.values name).isSome then
        Except.ok (h.set i { env with values := listInsert env.values name v })
      else
        match env.enclosing_enviroment with
        | Option.some p => env_assign h fuel p name v
        | Option.none =>
          Except.error (("Attempt to assign to undefined variable ") ++ name)

/-- `Enviroment::define` (enviroment.rs lines 66–68): insert into the
environment node `i` points at.  The index is always valid when called. -/
def env_define (h : Heap) (i : Nat) (name : String) (v : Value) : Heap :=
  match h[i]? with
  | Option.some env => h.set i { env with values := listInsert env.values name v }
  | Option.none => h

/-! ## Symbols and symbol tables (symbol.rs, symbol_table.rs).

The analyzer's scope chain (`Rc<RefCell<SymbolTable>>` parent links) is a
non-empty stack: the head is the current scope, the tail its ancestors.
Nothing but the chain itself ever holds a scope handle, so a stack is an
exact model.  (`semantic_analyzer.rs` constructs `Symbol::BuiltInSymbol`
directly from a name, which is what the model records.) -/

inductive TypeSymbol where
  | number | unknown
  deriving DecidableEq, Repr

inductive Symbol where
  | varSymbol (name : String) (symbol_type : TypeSymbol)
  | builtInSymbol (name : String)
  | functionSymbol (name : String) (param : List String)
  deriving DecidableEq, Repr

structure SymbolTable where
  symbols : List (String × Symbol)
  scope_name : String
  scope_level : Nat
  deriving DecidableEq, Repr

abbrev Scopes := List SymbolTable

/-- `SymbolTable::insert` on the current (innermost) scope. -/
def scope_insert (scopes : Scopes) (name : String) (sym : Symbol) : Scopes :=
  match scopes with
  | [] => []
  | s :: rest => { s with symbols := listInsert s.symbols name sym } :: rest

/-- `SymbolTable::remove` on the current (innermost) scope. -/
def scope_remove (scopes : Scopes) (name : String) : Scopes :=
  match scopes with
  | [] => []
  | s :: rest => { s with symbols := listRemove s.symbols name } :: rest

/-- `SymbolTable::look_up` (symbol_table.rs lines 30–40). -/
def scope_look_up : Scopes → String → Bool → Option Symbol
  | [], _, _ => Option.none
  | s :: rest, name, current_scope_only =>
    match listGet s.symbols name with
    | Option.some sym => Option.some sym
    | Option.none =>
      if current_scope_only then Option.none else scope_look_up rest name false

/-! ## Interpreter options and state. -/

structure InterpreterOptions where
  disable_calls : Bool
  disable_decleration : Bool
  deriving DecidableEq, Repr

def InterpreterOptions.new : InterpreterOptions := ⟨false, false⟩

def InterpreterOptions.all : InterpreterOptions := ⟨true, true⟩

/-- The interpreter's persistent mutable state: the environment heap with the
current environment index (`Interpreter::env`), the analyzer's scope chain
(`SemanticAnalyzer::scope`, shared with the interpreter), and the current
options. -/
structure State where
  heap : Heap
  env : Nat
  scopes : Scopes
  opts : InterpreterOptions

/-- Depth of the environment chain starting at index `i` (1 for the global
environment).  Fuelled like `env_look_up`. -/
def envDepthAux (h : Heap) : Nat → Nat → Nat
  | 0, _ => 0
  | fuel + 1, i =>
    match h[i]? with
    | Option.none => 0
    | Option.some env =>
      match env.enclosing_enviroment with
      | Option.some p => envDepthAux h fuel p + 1
      | Option.none => 1

def State.envDepth (s : State) : Nat := envDepthAux s.heap s.heap.length s.env

def State.scopeDepth (s : State) : Nat := s.scopes.length

/-- `Interpreter::new` + `set_up_env` + `SemanticAnalyzer::new`: one global
environment holding the `print` and `error` built-ins (captured environment =
the global one), and one global scope table holding their symbols. -/
def initState : State :=
  let globalValues : List (String × Value) :=
    listInsert (listInsert [] ("print") (Value.function (.builtIn ("print")) 0))
      ("error") (Value.function (.builtIn ("error")) 0)
  let globalSymbols : List (String × Symbol) :=
    listInsert (listInsert [] ("print") (Symbol.builtInSymbol ("print")))
      ("error") (Symbol.builtInSymbol ("error"))
  { heap := [{ values := globalValues, enclosing_enviroment := Option.none }],
    env := 0,
    scopes := [{ symbols := globalSymbols, scope_name := ("global"), scope_level := 1 }],
    opts := InterpreterOptions.new }

/-! ## Pure helpers of interpreter.rs. -/

/-- `convert_f64_usize` (interpreter.rs lines 10–17).  `x as usize` truncates
toward zero and saturates below at 0; the round-trip check `|result - x| > 0`
rejects anything that is not a non-negative integer.  (The `f64` saturation
at `usize::MAX` has no counterpart in the unbounded rational model.) -/
def convert_f64_usize (x : ℚ) : Except String Nat :=
  let result : Nat := if x < 0 then 0 else (⌊x⌋).toNat
  if 0 < |((result : ℚ) - x)| then Except.error ("Cannot convert")
  else Except.ok result

/-- `to_bool` (interpreter.rs lines 19–27): the truthiness coercion. -/
def to_bool : Value → Bool
  | .number num => num != 0
  | .string s => !(s.isEmpty)
  | .boolean b => b
  | .function _ _ => true
  | .none => false

/-- Rendering used where the Rust code formats a value with `{:?}`.  The
exact Rust `Debug` text is not reproduced; no claim inspects these
messages, only the fixed-text ones. -/
def debug_value : Value → String
  | .number n => ("Number(") ++ toString n ++ (")")
  | .boolean b => ("Boolean(") ++ toString b ++ (")")
  | .string s => ("String(") ++ s ++ (")")
  | .function _ _ => ("Function(..)")
  | .none => ("None")

/-- `loggable_value` (interpreter.rs lines 29–41); number formatting is the
rational printer rather than the `f64` one. -/
def loggable_value : Value → String
  | .number n => toString n
  | .boolean b => toString b
  | .string s => s
  | .function ft _ =>
    match ft with
    | .function name _ _ => ("[Function: ") ++ name ++ ("]")
    | .lambda _ _ _ => ("[Function: (lambda)]")
    | .builtIn name => ("[Built-In Function: ") ++ name ++ ("]")
  | .none => ("none")

/-- `str::repeat`: `n` concatenated copies. -/
def repeatStr (s : String) : Nat → String
  | 0 => ("")
  | n + 1 => s ++ repeatStr s n

/-- Truncation toward zero, as Rust `%` on `f64` needs it. -/
def ratTrunc (q : ℚ) : ℤ := if q < 0 then ⌈q⌉ else ⌊q⌋

/-- Rust `f64 %` (remainder with the dividend's sign): `a - b * trunc (a/b)`.
Division by zero differs from IEEE (ℚ gives 0); no claim touches it. -/
def rust_rem (a b : ℚ) : ℚ := a - b * (ratTrunc (a / b) : ℚ)

/-- Stand-in for `f64::powf` on the rational model: exact for integer
exponents, 0 in the transcendental cases.  No claim involves `**`. -/
def qpowf (a b : ℚ) : ℚ :=
  if b.den = 1 then
    (if 0 ≤ b.num then a ^ b.num.toNat else (a ^ (-b.num).toNat)⁻¹)
  else 0

/-- `number_operation` (interpreter.rs lines 123–137), post-evaluation part;
the operator parameter of the source, used only inside the error message
text, is folded into the abbreviated message. -/
def number_operation (left right : Value) (callback : ℚ → ℚ → ℚ) :
    Except NekoError Value :=
  match left, right with
  | .number a, .number b => Except.ok (.number (callback a b))
  | a, b =>
    Except.error (.typeError (("Expected Number for binary operator, got ")
      ++ debug_value a ++ (", ") ++ debug_value b))

/-- `bool_operation` (interpreter.rs lines 139–153), post-evaluation part;
the operator parameter is folded into the message as in `number_operation`. -/
def bool_operation (left right : Value) (callback : ℚ → ℚ → Bool) :
    Except NekoError Value :=
  match left, right with
  | .number a, .number b => Except.ok (.boolean (callback a b))
  | a, b =>
    Except.error (.typeError (("Expected Number for binary operator, got ")
      ++ debug_value a ++ (", ") ++ debug_value b))

/-- The `String * Number` arm of `visit_bin_operator`'s `Mul` case
(interpreter.rs lines 174–180): repetition with the `map_err` message. -/
def string_mul (a : String) (b : ℚ) : Except NekoError Value :=
  match convert_f64_usize b with
  | Except.ok n => Except.ok (.string (repeatStr a n))
  | Except.error _ =>
    Except.error (.typeError
      ("Can\x27t multiply sequence by non-positive int of type float or negative int"))

/-- Operator dispatch of `visit_bin_operator` (interpreter.rs lines 160–224)
after both operands have been evaluated.  Note that `and`/`or` only choose
between the two already-computed values. -/
def bin_dispatch (operator : Token) (lv rv : Value) : Except NekoError Value :=
  match operator with
  | .operator .plus =>
    match lv, rv with
    | .number a, .number b => Except.ok (.number (a + b))
    | .string a, .string b => Except.ok (.string (a ++ b))
    | a, b =>
      Except.error (.typeError (("Mismatched types for binary Add, got ")
        ++ debug_value a ++ (" and ") ++ debug_value b))
  | .operator .minus => number_operation lv rv (fun a b => a - b)
  | .operator .mul =>
    match lv, rv with
    | .number a, .number b => Except.ok (.number (a * b))
    | .string a, .number b => string_mul a b
    | .number b, .string a => string_mul a b
    | a, b =>
      Except.error (.typeError (("Mismatched types for binary Mul, got ")
        ++ debug_value a ++ (" and ") ++ debug_value b))
  | .operator .div => number_operation lv rv (fun a b => a / b)
  | .operator .modulus => number_operation lv rv rust_rem
  | .operator .exponent => number_operation lv rv qpowf
  | .operator .doubleEqual => Except.ok (.boolean (lv == rv))
  | .operator .notEqual => Except.ok (.boolean (lv != rv))
  | .operator .greaterThan => bool_operation lv rv (fun a b => b < a)
  | .operator .greaterThanOrEqual => bool_operation lv rv (fun a b => b ≤ a)
  | .operator .lessThan => bool_operation lv rv (fun a b => a < b)
  | .operator .lessThanOrEqual => bool_operation lv rv (fun a b => a ≤ b)
  | .keyword .or => Except.ok (if to_bool lv then lv else rv)
  | .keyword .and => Except.ok (if !(to_bool lv) then lv else rv)
  | _ => Except.error (.syntaxError ("Expected Operator, got expression."))

/-- The two built-ins installed by `set_up_env` (interpreter.rs lines 80–121),
dispatched by name.  `print`'s terminal output is not modelled; it returns
`None`. -/
def built_in_apply (name : String) (args : List Value) : Except NekoError Value :=
  if name = "print" then Except.ok Value.none
  else if name = "error" then
    match args.head? with
    | Option.some v => Except.error (.unknownError (loggable_value v))
    | Option.none => Except.error (.typeError ("Expect value got none."))
  else Except.error (.unknownError (("unknown built-in ") ++ name))

/-! ## Evaluation results.  `Res.timeout` is exhausted fuel (a run that is
still going in the unfuelled original); it is distinct from every
`NekoError`. -/

inductive Res (α : Type) where
  | ok (a : α)
  | err (e : NekoError)
  | timeout
  deriving BEq

/-- Exit protocol of `Interpreter::function_call` (interpreter.rs lines
334–344): only a successful body evaluation restores `self.env`, and the
restore target is the *finishing* environment's parent (`enclosing_enviroment
.unwrap()`), not the environment the caller held.  An `unwrap` of a missing
parent aborts the process, modelled as an error result. -/
def call_exit (r : Res Value × State) : Res Value × State :=
  match r with
  | (.ok v, s) =>
    match s.heap[s.env]? with
    | Option.some env =>
      match env.enclosing_enviroment with
      | Option.some p => (.ok v, { s with env := p })
      | Option.none =>
        (.err (.unknownError ("panic: unwrap of missing enclosing enviroment")), s)
    | Option.none => (.err (.unknownError ("panic: invalid enviroment handle")), s)
  | other => other

/-- The fresh child environment pushed at the start of
`Interpreter::function_call` (interpreter.rs line 324): a new empty
environment whose parent is the callee's captured environment `closure`. -/
def mkChild (s : State) (closure : Nat) : State :=
  { s with
    heap := s.heap ++ [{ values := [], enclosing_enviroment := Option.some closure }],
    env := s.heap.length }

/-! ## The evaluator (interpreter.rs lines 155–434).

Every visitor consumes one unit of fuel on entry and hands the rest to its
recursive calls, so recursion through user-defined functions is total; an
exhausted budget yields `Res.timeout`.  `visit_compound` serves both
`Interpreter::visit_compound` and `Interpreter::visit_block`, whose source
bodies are identical (the running result is the last non-`None` statement
value). -/

mutual

def visit : Nat → Node → State → Res Value × State
  | 0, _, s => (.timeout, s)
  | fuel + 1, n, s =>
    match n with
    | .compound nodes => visit_compound fuel nodes Value.none s
    | .variabeDecleration identifier value =>
      visit_variable_decleration fuel identifier value s
    | .functionDecleration name params body =>
      visit_function_decleration fuel name params body s
    | .block nodes => visit_compound fuel nodes Value.none s
    | .expression inner => visit_expression fuel inner s
    | other => visit_expression fuel other s

def visit_expression : Nat → Node → State → Res Value × State
  | 0, _, s => (.timeout, s)
  | fuel + 1, n, s =>
    match n with
    | .binOperator left operator right => visit_bin_operator fuel left operator right s
    | .number num => (.ok (.number num), s)
    | .boolean b => (.ok (.boolean b), s)
    | .string str => (.ok (.string str), s)
    | .none => (.ok Value.none, s)
    | .identifier iden =>
      match env_look_up s.heap s.heap.length s.env iden false with
      | Option.some v => (.ok v, s)
      | Option.none => (.err (.referenceError (iden ++ (" is not defined"))), s)
    | .unaryOperator operator e => visit_unary_operator fuel operator e s
    | .assignmentExpr identifier value => visit_assignment fuel identifier value s
    | .functionCall callee arguments => visit_function_call fuel callee arguments s
    | .lambda id params body => visit_lambda_decleration fuel id params body s
    | _ => (.err (.syntaxError ("Invalid Syntax")), s)

def visit_bin_operator : Nat → Node → Token → Node → State → Res Value × State
  | 0, _, _, _, s => (.timeout, s)
  | fuel + 1, left, operator, right, s =>
    match visit_expression fuel left s with
    | (.ok lv, s₁) =>
      match visit_expression fuel right s₁ with
      | (.ok rv, s₂) =>
        (match bin_dispatch operator lv rv with
         | Except.ok v => (.ok v, s₂)
         | Except.error e => (.err e, s₂))
      | (.err e, s₂) => (.err e, s₂)
      | (.timeout, s₂) => (.timeout, s₂)
    | (.err e, s₁) => (.err e, s₁)
    | (.timeout, s₁) => (.timeout, s₁)

def visit_unary_operator : Nat → Token → Node → State → Res Value × State
  | 0, _, _, s => (.timeout, s)
  | fuel + 1, operator, expr, s =>
    match operator with
    | .operator .plus => visit_expression fuel expr s
    | .operator .minus =>
      (match visit_expression fuel expr s with
       | (.ok (.number num), s₁) => (.ok (.number (-num)), s₁)
       | (.ok other, s₁) =>
         (.err (.typeError (("Expected Number for Unary Minus, got ")
           ++ debug_value other)), s₁)
       | (.err e, s₁) => (.err e, s₁)
       | (.timeout, s₁) => (.timeout, s₁))
    | .operator .not =>
      (match visit_expression fuel expr s with
       | (.ok v, s₁) =>
         (match v with
          | .boolean b => (.ok (.boolean (!b)), s₁)
          | .string _ => (.ok (.boolean (!(to_bool v))), s₁)
          | .number _ => (.ok (.boolean (!(to_bool v))), s₁)
          | other =>
            (.err (.typeError (("Expected Number for Unary Not, got ")
              ++ debug_value other)), s₁))
       | (.err e, s₁) => (.err e, s₁)
       | (.timeout, s₁) => (.timeout, s₁))
    | _ => (.err (.syntaxError ("Expected Unary Operator + or -, got expression")), s)

def visit_compound : Nat → List Node → Value → State → Res Value × State
  | 0, _, _, s => (.timeout, s)
  | _ + 1, [], result, s => (.ok result, s)
  | fuel + 1, n :: rest, result, s =>
    match visit fuel n s with
    | (.ok v, s₁) =>
      visit_compound fuel rest (match v with | Value.none => result | v => v) s₁
    | (.err e, s₁) => (.err e, s₁)
    | (.timeout, s₁) => (.timeout, s₁)

def visit_variable_decleration : Nat → String → Option Node → State → Res Value × State
  | 0, _, _, s => (.timeout, s)
  | fuel + 1, identifier, value, s =>
    if s.opts.disable_decleration then (.ok Value.none, s)
    else
      match value with
      | Option.some value_node =>
        (match visit fuel value_node s with
         | (.ok v, s₁) =>
           (.ok Value.none, { s₁ with heap := env_define s₁.heap s₁.env identifier v })
         | (.err e, s₁) =>
           (.err e, { s₁ with scopes := scope_remove s₁.scopes identifier })
         | (.timeout, s₁) => (.timeout, s₁))
      | Option.none =>
        (.ok Value.none, { s with heap := env_define s.heap s.env identifier Value.none })

def visit_function_decleration : Nat → String → List String → Node → State → Res Value × State
  | 0, _, _, _, s => (.timeout, s)
  | _ + 1, name, params, body, s =>
    if s.opts.disable_decleration then (.ok Value.none, s)
    else
      let function := Value.function (.function name params body) s.env
      (.ok Value.none, { s with heap := env_define s.heap s.env name function })

def visit_lambda_decleration : Nat → String → List String → Node → State → Res Value × State
  | 0, _, _, _, s => (.timeout, s)
  | _ + 1, id, params, body, s =>
    let function := Value.function (.lambda id params body) s.env
    (.ok function, { s with heap := env_define s.heap s.env id function })

def function_call : Nat → List Node → List String → Node → Nat → State → Res Value × State
  | 0, _, _, _, _, s => (.timeout, s)
  | fuel + 1, arguments, params, block, closure, s =>
    match bind_params fuel params arguments (mkChild s closure) with
    | (.ok _, s₁) => call_exit (visit fuel block s₁)
    | (.err e, s₁) => (.err e, s₁)
    | (.timeout, s₁) => (.timeout, s₁)

def bind_params : Nat → List String → List Node → State → Res Unit × State
  | 0, _, _, s => (.timeout, s)
  | _ + 1, [], _, s => (.ok (), s)
  | fuel + 1, param :: params, arguments, s =>
    match arguments with
    | [] =>
      bind_params fuel params []
        { s with heap := env_define s.heap s.env param Value.none }
    | a :: rest =>
      match visit fuel a s with
      | (.ok v, s₁) =>
        bind_params fuel params rest
          { s₁ with heap := env_define s₁.heap s₁.env param v }
      | (.err e, s₁) => (.err e, s₁)
      | (.timeout, s₁) => (.timeout, s₁)

def eval_args : Nat → List Node → State → Res (List Value) × State
  | 0, _, s => (.timeout, s)
  | _ + 1, [], s => (.ok [], s)
  | fuel + 1, a :: rest, s =>
    match visit fuel a s with
    | (.ok v, s₁) =>
      (match eval_args fuel rest s₁ with
       | (.ok vs, s₂) => (.ok (v :: vs), s₂)
       | (.err e, s₂) => (.err e, s₂)
       | (.timeout, s₂) => (.timeout, s₂))
    | (.err e, s₁) => (.err e, s₁)
    | (.timeout, s₁) => (.timeout, s₁)

def handle_function : Nat → List Node → Value → State → Res Value × State
  | 0, _, _, s => (.timeout, s)
  | fuel + 1, arguments, value, s =>
    match value with
    | .function (.function _ params body) closure =>
      function_call fuel arguments params body closure s
    | .function (.lambda _ params body) closure =>
      function_call fuel arguments params body closure s
    | .function (.builtIn name) _ =>
      (match eval_args fuel arguments s with
       | (.ok args, s₁) =>
         (match built_in_apply name args with
          | Except.ok v => (.ok v, s₁)
          | Except.error e => (.err e, s₁))
       | (.err e, s₁) => (.err e, s₁)
       | (.timeout, s₁) => (.timeout, s₁))
    | v => (.err (.typeError (debug_value v ++ (" is not a function"))), s)

def visit_function_call : Nat → Node → List Node → State → Res Value × State
  | 0, _, _, s => (.timeout, s)
  | fuel + 1, callee, arguments, s =>
    if s.opts.disable_calls then (.err (.unknownError ("Calls Disabled")), s)
    else
      match callee with
      | .identifier identifier =>
        (match env_look_up s.heap s.heap.length s.env identifier false with
         | Option.some value => handle_function fuel arguments value s
         | Option.none =>
           (.err (.referenceError (identifier ++ (" is not defined"))), s))
      | .functionCall innerCallee innerArgs =>
        (match visit_function_call fuel innerCallee innerArgs s with
         | (.ok result, s₁) => handle_function fuel arguments result s₁
         | (.err e, s₁) => (.err e, s₁)
         | (.timeout, s₁) => (.timeout, s₁))
      | .lambda _ params body => function_call fuel arguments params body s.env s
      | _ => (.err (.typeError ("expression is not a function")), s)

def visit_assignment : Nat → String → Node → State → Res Value × State
  | 0, _, _, s => (.timeout, s)
  | fuel + 1, identifier, value, s =>
    match visit_expression fuel value s with
    | (.ok v, s₁) =>
      (match env_assign s₁.heap s₁.heap.length s₁.env identifier v with
       | Except.ok h => (.ok v, { s₁ with heap := h })
       | Except.error msg => (.err (.referenceError msg), s₁))
    | (.err e, s₁) => (.err e, s₁)
    | (.timeout, s₁) => (.timeout, s₁)

end

/-! ## The semantic analyzer (semantic_analyzer.rs).

Shares the scope chain inside `State` with the evaluator.  Recursion is
fuelled exactly like the evaluator (its recursion is in fact structural, but
a uniform fuel keeps the development simple; the fuel chosen for concrete
runs is always ample).  `s_visit_list` serves `visit_compound` and
`visit_block`, whose source bodies are identical.  Note three source facts
preserved here: `visit_variable_decleration` never visits the initializer,
`visit_bin_operator` visits the right operand before the left, and a child
scope pushed for a function or lambda body is only popped when the body
analysis succeeds. -/

def symbolsOfParams (params : List String) : List (String × Symbol) :=
  params.foldl (fun tbl p => listInsert tbl p (.varSymbol p .unknown)) []

mutual

def s_visit : Nat → Node → State → Res Unit × State
  | 0, _, s => (.timeout, s)
  | fuel + 1, n, s =>
    match n with
    | .compound nodes => s_visit_list fuel nodes s
    | .variabeDecleration identifier value =>
      s_visit_variable_decleration fuel identifier value s
    | .functionDecleration name params body =>
      s_visit_function_decleration fuel name params body s
    | .expression inner => s_visit_expression fuel inner s
    | .block nodes => s_visit_list fuel nodes s
    | other => s_visit_expression fuel other s

def s_visit_list : Nat → List Node → State → Res Unit × State
  | 0, _, s => (.timeout, s)
  | _ + 1, [], s => (.ok (), s)
  | fuel + 1, n :: rest, s =>
    match s_visit fuel n s with
    | (.ok _, s₁) => s_visit_list fuel rest s₁
    | (.err e, s₁) => (.err e, s₁)
    | (.timeout, s₁) => (.timeout, s₁)

def s_visit_expression : Nat → Node → State → Res Unit × State
  | 0, _, s => (.timeout, s)
  | fuel + 1, n, s =>
    match n with
    | .binOperator left _ right =>
      (match s_visit fuel right s with
       | (.ok _, s₁) => s_visit fuel left s₁
       | (.err e, s₁) => (.err e, s₁)
       | (.timeout, s₁) => (.timeout, s₁))
    | .number _ => (.ok (), s)
    | .boolean _ => (.ok (), s)
    | .string _ => (.ok (), s)
    | .object _ => (.ok (), s)
    | .none => (.ok (), s)
    | .identifier iden =>
      (match scope_look_up s.scopes iden false with
       | Option.some _ => (.ok (), s)
       | Option.none => (.err (.referenceError (iden ++ (" is not defined"))), s))
    | .unaryOperator _ e => s_visit fuel e s
    | .assignmentExpr identifier value => s_visit_assignment fuel identifier value s
    | .setPropertyExpr _ _ _ => (.ok (), s)
    | .functionCall _ _ => (.ok (), s)
    | .lambda id params body => s_visit_lambda fuel id params body s
    | .index _ _ => (.ok (), s)
    | _ => (.err (.syntaxError ("Invalid Syntax")), s)

def s_visit_assignment : Nat → String → Node → State → Res Unit × State
  | 0, _, _, s => (.timeout, s)
  | fuel + 1, identifier, value, s =>
    if (scope_look_up s.scopes identifier false).isSome then s_visit fuel value s
    else
      (.err (.referenceError (("Cannot find value \x27") ++ identifier
        ++ ("\x27 in this scope"))), s)

def s_visit_variable_decleration : Nat → String → Option Node → State → Res Unit × State
  | 0, _, _, s => (.timeout, s)
  | _ + 1, identifier, _, s =>
    if s.opts.disable_decleration then (.ok (), s)
    else if (scope_look_up s.scopes identifier true).isSome then
      (.err (.syntaxError (("Duplicate variable ") ++ identifier)), s)
    else
      (.ok (),
       { s with scopes := scope_insert s.scopes identifier (.varSymbol identifier .unknown) })

def s_visit_function_decleration : Nat → String → List String → Node → State → Res Unit × State
  | 0, _, _, _, s => (.timeout, s)
  | fuel + 1, name, params, body, s =>
    if s.opts.disable_decleration then (.ok (), s)
    else if (scope_look_up s.scopes name true).isSome then
      (.err (.syntaxError (("Duplicate variable ") ++ name)), s)
    else
      let s₁ := { s with scopes := scope_insert s.scopes name (.functionSymbol name params) }
      let level := ((s₁.scopes.head?.map SymbolTable.scope_level).getD 0) + 1
      let s₂ := { s₁ with scopes :=
        ({ symbols := symbolsOfParams params, scope_name := name, scope_level := level }
          : SymbolTable) :: s₁.scopes }
      match s_visit fuel body s₂ with
      | (.ok _, s₃) => (.ok (), { s₃ with scopes := s₃.scopes.tail })
      | (.err e, s₃) => (.err e, s₃)
      | (.timeout, s₃) => (.timeout, s₃)

def s_visit_lambda : Nat → String → List String → Node → State → Res Unit × State
  | 0, _, _, _, s => (.timeout, s)
  | fuel + 1, id, params, body, s =>
    let s₁ := { s with scopes := scope_insert s.scopes id (.functionSymbol id params) }
    let level := ((s₁.scopes.head?.map SymbolTable.scope_level).getD 0) + 1
    let s₂ := { s₁ with scopes :=
      ({ symbols := symbolsOfParams params, scope_name := id, scope_level := level }
        : SymbolTable) :: s₁.scopes }
    match s_visit fuel body s₂ with
    | (.ok _, s₃) => (.ok (), { s₃ with scopes := s₃.scopes.tail })
    | (.err e, s₃) => (.err e, s₃)
    | (.timeout, s₃) => (.timeout, s₃)

end

/-! ## Entry point.

`Interpreter::interpret` / `interpret_with_option` (interpreter.rs lines
436–452): store the options (shared by analyzer and evaluator), parse, run
the analyzer on the shared scope chain, then evaluate.  Parsing is a pure
function of the text that touches no interpreter state, so claims about
`interpret(text)` are settled on the AST that `Parser::parse` yields for the
concrete text in question (constructed explicitly at each use). -/
def interpretAST (fuel : Nat) (ast : Node) (opts : InterpreterOptions) (s : State) :
    Res Value × State :=
  let s₀ : State := { s with opts := opts }
  match s_visit fuel ast s₀ with
  | (.ok _, s₁) => visit fuel ast s₁
  | (.err e, s₁) => (.err e, s₁)
  | (.timeout, s₁) => (.timeout, s₁)

/-! ## Observation helpers used by the theorems. -/

def Res.isTypeError {α : Type} : Res α → Bool
  | .err (.typeError _) => true
  | _ => false

def Res.isReferenceError {α : Type} : Res α → Bool
  | .err (.referenceError _) => true
  | _ => false

def Res.isOk {α : Type} : Res α → Bool
  | .ok _ => true
  | _ => false

/-- The rational carried by a successful `Number` result. -/
def res_number (r : Res Value) : Option ℚ :=
  match r with
  | .ok (.number n) => Option.some n
  | _ => Option.none

/-- The text carried by a successful `String` result. -/
def res_string (r : Res Value) : Option String :=
  match r with
  | .ok (.string str) => Option.some str
  | _ => Option.none

/-- The boolean carried by a successful `Boolean` result. -/
def res_boolean (r : Res Value) : Option Bool :=
  match r with
  | .ok (.boolean b) => Option.some b
  | _ => Option.none

/-! ## Concrete programs and intermediate interpreter states.

Each program below is the AST that `Parser::parse` yields for the quoted
source text; each intermediate state is the interpreter state reached by
the preceding run, verified by the `rfl`-proved equalities in the closed
theorems further down. -/

/-- Body of `function f() { 1 + 'a'; }`: a runtime TypeError that the
semantic pass does not reject. -/
def funBodyBad : Node := .block [
  .expression (.binOperator (.number 1) (.operator .plus) (.string ("a")))]

/-- AST of `function f() { 1 + 'a'; } f();`. -/
def progFnErr : Node := .compound [
  .functionDecleration ("f") [] funBodyBad,
  .expression (.functionCall (.identifier ("f")) [])]

/-- AST of `let x = 1;`. -/
def progLetX : Node := .compound [.variabeDecleration ("x") (Option.some (.number 1))]

/-- AST of `x = 42;`. -/
def progAssignX : Node := .compound [.expression (.assignmentExpr ("x") (.number 42))]

/-- AST of `x;`. -/
def progUseX : Node := .compound [.expression (.identifier ("x"))]

/-- Global bindings after `let x = 1;`. -/
def valuesX1 : List (String × Value) := [
  (("x"), Value.number 1),
  (("error"), Value.function (.builtIn ("error")) 0),
  (("print"), Value.function (.builtIn ("print")) 0)]

/-- Global bindings after the preview `x = 42;` overwrote `x`. -/
def valuesX2 : List (String × Value) := [
  (("x"), Value.number 42),
  (("error"), Value.function (.builtIn ("error")) 0),
  (("print"), Value.function (.builtIn ("print")) 0)]

/-- Global symbols after `let x = 1;`. -/
def symbolsX : List (String × Symbol) := [
  (("x"), Symbol.varSymbol ("x") .unknown),
  (("error"), Symbol.builtInSymbol ("error")),
  (("print"), Symbol.builtInSymbol ("print"))]

/-- The interpreter state after a non-preview `let x = 1;`. -/
def stateX1 : State :=
  { heap := [{ values := valuesX1, enclosing_enviroment := Option.none }],
    env := 0,
    scopes := [{ symbols := symbolsX, scope_name := ("global"), scope_level := 1 }],
    opts := InterpreterOptions.new }

/-- The state after the preview `x = 42;`: the persistent binding of `x` in
the global environment has been overwritten. -/
def stateX2 : State :=
  { heap := [{ values := valuesX2, enclosing_enviroment := Option.none }],
    env := 0,
    scopes := [{ symbols := symbolsX, scope_name := ("global"), scope_level := 1 }],
    opts := InterpreterOptions.all }

/-- Body of the lambda `|x| x + n`. -/
def lamBody : Node := .block [
  .binOperator (.identifier ("x")) (.operator .plus) (.identifier ("n"))]

/-- Body of `function make() { let n = 10; |x| x + n; }`. -/
def makeBody : Node := .block [
  .variabeDecleration ("n") (Option.some (.number 10)),
  .expression (.lambda ("lam0") [("x")] lamBody)]

/-- AST of `function make() { let n = 10; |x| x + n; }` (the lambda id is
the parser's pointer-derived synthetic name, here rendered `lam0`). -/
def progMake : Node := .compound [.functionDecleration ("make") [] makeBody]

/-- AST of `let f = make();`. -/
def progLetF : Node := .compound [
  .variabeDecleration ("f") (Option.some (.functionCall (.identifier ("make")) []))]

/-- AST of `f(5);`. -/
def progCallF : Node := .compound [
  .expression (.functionCall (.identifier ("f")) [.number 5])]

/-- Global bindings after declaring `make`. -/
def valuesMk : List (String × Value) := [
  (("make"), Value.function (.function ("make") [] makeBody) 0),
  (("error"), Value.function (.builtIn ("error")) 0),
  (("print"), Value.function (.builtIn ("print")) 0)]

/-- Global symbols after declaring `make`. -/
def symbolsMk : List (String × Symbol) := [
  (("make"), Symbol.functionSymbol ("make") []),
  (("error"), Symbol.builtInSymbol ("error")),
  (("print"), Symbol.builtInSymbol ("print"))]

/-- State after declaring `make`. -/
def stateMk : State :=
  { heap := [{ values := valuesMk, enclosing_enviroment := Option.none }],
    env := 0,
    scopes := [{ symbols := symbolsMk, scope_name := ("global"), scope_level := 1 }],
    opts := InterpreterOptions.new }

/-- The lambda value returned by `make()`: its captured environment is the
`make` call frame, heap index 1. -/
def lamValue : Value := Value.function (.lambda ("lam0") [("x")] lamBody) 1

/-- Values of the `make()` call frame (heap index 1): the local `n` and the
lambda bound under its synthetic id. -/
def valuesE1 : List (String × Value) := [
  (("lam0"), lamValue),
  (("n"), Value.number 10)]

/-- Global symbols after `let f = make();`. -/
def symbolsF : List (String × Symbol) :=
  (("f"), Symbol.varSymbol ("f") .unknown) :: symbolsMk

/-- State after `let f = make();`: the global frame (index 0) holds `f`; the
`make` call frame survives at index 1 as the lambda's captured environment,
and the current environment is global again (that call's frame had the
global frame as parent). -/
def stateF : State :=
  { heap := [
      { values := (("f"), lamValue) :: valuesMk, enclosing_enviroment := Option.none },
      { values := valuesE1, enclosing_enviroment := Option.some 0 }],
    env := 0,
    scopes := [{ symbols := symbolsF, scope_name := ("global"), scope_level := 1 }],
    opts := InterpreterOptions.new }

/-- `Enviroment::define` as a transformation of a single environment node:
insert the binding, keep the parent link. -/
def defineEnv (env₁ : Enviroment) (p : String) (v : Value) : Enviroment :=
  { env₁ with values := listInsert env₁.values p v }


/-! ## Shared small lemmas. -/

theorem listGet_insert_self {α : Type} (l : List (String × α)) (k : String) (v : α) :
    listGet (listInsert l k v) k = Option.some v := by
  simp [listGet, listInsert, List.find?]

/-! ## C5 — lexer keyword mapping. -/

/-- C5: the claim says the lexer maps `and`, `or` and `none` to `Keyword`
tokens (alongside `let` and `function`), `true`/`false` to `Boolean`, `not`
to `Operator(Not)` and all other words to `Identifier`.  The lexer's word
dispatch (lexer.rs lines 38–48) has no arms for `and`, `or` or `none`: they
fall through to `Identifier`, even though parser.rs matches
`Keyword::And`/`Keyword::Or` (so those grammar rules can never fire) and
interpreter.rs evaluates them.  The remaining mappings are as claimed. -/
theorem c5_lexer_word_tokens :
    lex_word_token ("and") = Token.identifier ("and")
    ∧ lex_word_token ("or") = Token.identifier ("or")
    ∧ lex_word_token ("none") = Token.identifier ("none")
    ∧ lex_word_token ("let") = Token.keyword .letKw
    ∧ lex_word_token ("function") = Token.keyword .function
    ∧ lex_word_token ("true") = Token.boolean true
    ∧ lex_word_token ("false") = Token.boolean false
    ∧ lex_word_token ("not") = Token.operator .not
    ∧ lex_word_token ("while") = Token.identifier ("while") := by
  refine ⟨?_, ?_, ?_, ?_, ?_, ?_, ?_, ?_, ?_⟩ <;> decide

/-! ## C9 — unary plus. -/

/-- C9 counterexample: the claim says `+x` is a type error for every
non-Number `x`; but `+ 'a'` evaluates to the string `"a"` unchanged and is
not a type error. -/
theorem c9_counterexample :
    res_string (visit_unary_operator 2 (.operator .plus) (.string ("a")) initState).1
      = Option.some ("a")
    ∧ (visit_unary_operator 2 (.operator .plus) (.string ("a")) initState).1.isTypeError
      = false := by
  refine ⟨?_, ?_⟩ <;> decide

/-- C9 (amended): `Interpreter::visit_unary_operator` (interpreter.rs line
229) forwards a unary `+` to `visit_expression` with no type check at all:
`+x` returns `x` unchanged for every value, Number or not. -/
theorem c9_unary_plus_passthrough (fuel : Nat) (e : Node) (s : State) :
    visit_unary_operator (fuel + 1) (.operator .plus) e s = visit_expression fuel e s := by
  rfl

/-! ## C6 — unary not. -/

/-- C6 counterexample: the claim says `not x` succeeds for every value kind,
with `not none = Boolean(true)` and `not <function> = Boolean(false)`.  The
code (interpreter.rs lines 237–248) only accepts Boolean, String and Number
and raises a TypeError for `None` and `Function` operands. -/
theorem c6_counterexample :
    (visit_unary_operator 2 (.operator .not) Node.none initState).1.isTypeError = true
    ∧ res_boolean (visit_unary_operator 2 (.operator .not) Node.none initState).1
      = Option.none
    ∧ (visit_unary_operator 3 (.operator .not)
        (.lambda ("lam") [] (.block [])) initState).1.isTypeError = true := by
  refine ⟨?_, ?_, ?_⟩ <;> decide

/-- C6 (amended): `not x` returns `Boolean(!truthy(x))` when `x` evaluates
to a Boolean, String or Number, and a TypeError when it evaluates to a
Function or None (interpreter.rs lines 237–248). -/
theorem c6_not_semantics (fuel : Nat) (s s₁ : State) (e : Node) (v : Value)
    (h : visit_expression fuel e s = (.ok v, s₁)) :
    visit_unary_operator (fuel + 1) (.operator .not) e s
      = ((match v with
          | .boolean b => Res.ok (.boolean (!b))
          | .string str => Res.ok (.boolean (!(to_bool (Value.string str))))
          | .number n => Res.ok (.boolean (!(to_bool (Value.number n))))
          | other =>
            Res.err (.typeError (("Expected Number for Unary Not, got ")
              ++ debug_value other))), s₁) := by
  simp only [visit_unary_operator, h]
  cases v <;> rfl

/-- C6 witness: `not true` evaluates to `false` via `c6_not_semantics`. -/
theorem c6_witness :
    visit_unary_operator 2 (.operator .not) (.boolean true) initState
      = (.ok (.boolean false), initState) :=
  c6_not_semantics 1 initState initState (.boolean true) (.boolean true) rfl

/-! ## C2 — `and`/`or` short-circuiting. -/

/-- C2 counterexample: the claim says that when the left operand of `and` is
falsy, the right operand is not evaluated and the left value is returned.
Evaluating `0 and (1 + 'a')` must then yield `Number(0)`; instead the code
evaluates the right operand first-class (interpreter.rs lines 155–159
evaluate both sides before dispatching) and the right operand's TypeError
propagates. -/
theorem c2_counterexample :
    (visit_expression 9 (.binOperator (.number 0) (.keyword .and)
        (.binOperator (.number 1) (.operator .plus) (.string ("a")))) initState).1.isTypeError
      = true
    ∧ res_number (visit_expression 9 (.binOperator (.number 0) (.keyword .and)
        (.binOperator (.number 1) (.operator .plus) (.string ("a")))) initState).1
      = Option.none := by
  refine ⟨?_, ?_⟩ <;> decide

/-- C2 (amended): `visit_bin_operator` always evaluates both operands, left
then right; when the left operand decides the result (`and` with falsy left,
`or` with truthy left) the left value is returned, but the right operand has
already been evaluated, so its state effects persist and its errors (and
timeouts) propagate instead of the left value. -/
theorem c2_and_or_right_always_evaluated (fuel : Nat) (s s₁ s₂ : State) (l r : Node)
    (lv : Value) (res : Res Value)
    (hl : visit_expression fuel l s = (.ok lv, s₁))
    (hr : visit_expression fuel r s₁ = (res, s₂)) :
    (to_bool lv = false →
      visit_bin_operator (fuel + 1) l (.keyword .and) r s
        = ((match res with
            | .ok _ => Res.ok lv
            | .err e => Res.err e
            | .timeout => Res.timeout), s₂))
    ∧ (to_bool lv = true →
      visit_bin_operator (fuel + 1) l (.keyword .or) r s
        = ((match res with
            | .ok _ => Res.ok lv
            | .err e => Res.err e
            | .timeout => Res.timeout), s₂)) := by
  constructor <;> intro h <;>
    simp only [visit_bin_operator, hl, hr] <;>
    cases res <;> simp [bin_dispatch, h]

/-- C2 witness: `0 and y` with `y` unbound propagates the right operand's
ReferenceError (via `c2_and_or_right_always_evaluated`). -/
theorem c2_witness :
    visit_bin_operator 3 (.number 0) (.keyword .and) (.identifier ("y")) initState
      = (.err (.referenceError (("y") ++ (" is not defined"))), initState) :=
  (c2_and_or_right_always_evaluated 2 initState initState initState
    (.number 0) (.identifier ("y")) (.number 0)
    (.err (.referenceError (("y") ++ (" is not defined")))) rfl rfl).1 rfl

/-! ## C7 — variable-declaration rollback on initializer error. -/

/-- C7: when the initializer of `let name = expr;` fails, the error
propagates, `name` is removed from the current scope table
(`SymbolTable::remove`), and the environment is left exactly as the failed
initializer evaluation left it — the binding for `name` is never created,
because `Enviroment::define` only runs after a successful evaluation
(interpreter.rs lines 269–287). -/
theorem c7_var_decl_error_rollback (fuel : Nat) (s s₁ : State) (name : String)
    (e : Node) (err : NekoError)
    (hopts : s.opts.disable_decleration = false)
    (hinit : visit fuel e s = (.err err, s₁)) :
    visit_variable_decleration (fuel + 1) name (Option.some e) s
      = (.err err, { s₁ with scopes := scope_remove s₁.scopes name }) := by
  simp [visit_variable_decleration, hopts, hinit]

/-- C7 witness: `let x = y;` with `y` unbound (the analyzer never checks
initializers, so this reaches the evaluator) removes `x` from the global
scope and leaves the global environment untouched. -/
theorem c7_witness :
    visit_variable_decleration 3 ("x") (Option.some (.identifier ("y"))) initState
      = (.err (.referenceError (("y") ++ (" is not defined"))),
         { initState with scopes := scope_remove initState.scopes ("x") }) :=
  c7_var_decl_error_rollback 2 initState initState ("x") (.identifier ("y"))
    (.referenceError (("y") ++ (" is not defined"))) rfl rfl

/-! ## C8 — multiplication. -/

/-- `convert_f64_usize` succeeds exactly on the rationals that are
non-negative integers, and then returns that integer. -/
theorem convert_f64_usize_ok_iff (x : ℚ) (n : Nat) :
    convert_f64_usize x = Except.ok n ↔ x = (n : ℚ) := by
  simp only [convert_f64_usize]
  split_ifs with hx habs habs
  · -- x < 0 and the round-trip differs: the error branch
    constructor
    · intro h; exact absurd h (by simp)
    · intro h
      rw [h] at hx
      exact absurd hx (not_lt.mpr (Nat.cast_nonneg n))
  · -- x < 0 yet |0 - x| ≤ 0 forces x = 0: impossible
    exfalso
    have h0 : |((0 : Nat) : ℚ) - x| = 0 := le_antisymm (not_lt.mp habs) (abs_nonneg _)
    rw [abs_eq_zero, sub_eq_zero] at h0
    rw [← h0] at hx
    simp at hx
  · -- 0 ≤ x but x is not the integer ⌊x⌋: the error branch
    constructor
    · intro h; exact absurd h (by simp)
    · intro h
      exfalso
      have hfl : (⌊x⌋ : ℚ) = x := by
        rw [h, Int.floor_natCast]
        norm_num
      have hnn : (0 : ℤ) ≤ ⌊x⌋ := Int.floor_nonneg.mpr (not_lt.mp hx)
      have hcast : ((⌊x⌋.toNat : Nat) : ℚ) = (⌊x⌋ : ℚ) := by
        rw [← Int.cast_natCast, Int.toNat_of_nonneg hnn]
      rw [hcast, hfl, sub_self, abs_zero] at habs
      exact lt_irrefl 0 habs
  · -- 0 ≤ x and the round-trip agrees: the success branch
    have hnn : (0 : ℤ) ≤ ⌊x⌋ := Int.floor_nonneg.mpr (not_lt.mp hx)
    have h0 : |((⌊x⌋.toNat : Nat) : ℚ) - x| = 0 :=
      le_antisymm (not_lt.mp habs) (abs_nonneg _)
    rw [abs_eq_zero, sub_eq_zero] at h0
    have hcast : ((⌊x⌋.toNat : Nat) : ℚ) = (⌊x⌋ : ℚ) := by
      rw [← Int.cast_natCast, Int.toNat_of_nonneg hnn]
    constructor
    · intro h
      have hn : ⌊x⌋.toNat = n := by
        have := congrArg (fun r => match r with
          | Except.ok m => m
          | Except.error _ => 0) h
        simpa using this
      rw [← hn, h0]
    · intro h
      have hfl : ⌊x⌋ = (n : ℤ) := by rw [h, Int.floor_natCast]
      have : ⌊x⌋.toNat = n := by rw [hfl]; exact Int.toNat_natCast n
      rw [this]

theorem bin_dispatch_mul_sn (a : String) (b : ℚ) :
    bin_dispatch (.operator .mul) (.string a) (.number b) = string_mul a b := rfl

theorem bin_dispatch_mul_ns (a : String) (b : ℚ) :
    bin_dispatch (.operator .mul) (.number b) (.string a) = string_mul a b := rfl

theorem string_mul_ok (a : String) (b : ℚ) (n : Nat)
    (h : convert_f64_usize b = Except.ok n) :
    string_mul a b = Except.ok (Value.string (repeatStr a n)) := by
  unfold string_mul
  rw [h]

theorem string_mul_error (a : String) (b : ℚ) (msg : String)
    (h : convert_f64_usize b = Except.error msg) :
    string_mul a b = Except.error (.typeError
      ("Can\x27t multiply sequence by non-positive int of type float or negative int")) := by
  unfold string_mul
  rw [h]

/-- C8: with both operands evaluated (left then right), `*` multiplies two
Numbers; a String and a Number in either order repeat the string when the
number is a non-negative integer, and otherwise raise the TypeError whose
text mentions the non-integer ("of type float") or negative count
(interpreter.rs lines 172–185, via `convert_f64_usize`). -/
theorem c8_mul_semantics (fuel : Nat) (s s₁ s₂ : State) (l r : Node) (vl vr : Value)
    (hl : visit_expression fuel l s = (.ok vl, s₁))
    (hr : visit_expression fuel r s₁ = (.ok vr, s₂)) :
    (∀ a b : ℚ, vl = .number a → vr = .number b →
      visit_bin_operator (fuel + 1) l (.operator .mul) r s = (.ok (.number (a * b)), s₂))
    ∧ (∀ (str : String) (b : ℚ),
        ((vl = .string str ∧ vr = .number b) ∨ (vl = .number b ∧ vr = .string str)) →
        ((∀ n : Nat, b = (n : ℚ) →
            visit_bin_operator (fuel + 1) l (.operator .mul) r s
              = (.ok (.string (repeatStr str n)), s₂))
          ∧ ((¬ ∃ n : Nat, b = (n : ℚ)) →
            visit_bin_operator (fuel + 1) l (.operator .mul) r s
              = (.err (.typeError
                  ("Can\x27t multiply sequence by non-positive int of type float or negative int")),
                 s₂)))) := by
  constructor
  · intro a b ha hb
    subst ha; subst hb
    simp only [visit_bin_operator, hl, hr]
    rfl
  · intro str b hdisj
    constructor
    · intro n hn
      have hc : convert_f64_usize b = Except.ok n := (convert_f64_usize_ok_iff b n).mpr hn
      rcases hdisj with ⟨h1, h2⟩ | ⟨h1, h2⟩ <;> subst h1 <;> subst h2 <;>
        simp only [visit_bin_operator, hl, hr, bin_dispatch_mul_sn, bin_dispatch_mul_ns,
          string_mul_ok str b n hc]
    · intro hne
      cases hc : convert_f64_usize b with
      | ok m => exact absurd ⟨m, (convert_f64_usize_ok_iff b m).mp hc⟩ hne
      | error msg =>
        rcases hdisj with ⟨h1, h2⟩ | ⟨h1, h2⟩ <;> subst h1 <;> subst h2 <;>
          simp only [visit_bin_operator, hl, hr, bin_dispatch_mul_sn, bin_dispatch_mul_ns,
            string_mul_error str b msg hc]

set_option maxHeartbeats 1000000 in
/-- C8 witness: `'ab' * 3` repeats and `'ab' * (-2)` raises the TypeError,
both via `c8_mul_semantics`. -/
theorem c8_witness :
    visit_bin_operator 2 (.string ("ab")) (.operator .mul) (.number 3) initState
      = (.ok (.string (repeatStr ("ab") 3)), initState)
    ∧ visit_bin_operator 2 (.string ("ab")) (.operator .mul) (.number (-2)) initState
      = (.err (.typeError
          ("Can\x27t multiply sequence by non-positive int of type float or negative int")),
         initState) := by
  constructor
  · exact ((c8_mul_semantics 1 initState initState initState (.string ("ab")) (.number 3)
      (.string ("ab")) (.number 3) rfl rfl).2 ("ab") 3 (Or.inl ⟨rfl, rfl⟩)).1 3 (by norm_num)
  · refine ((c8_mul_semantics 1 initState initState initState (.string ("ab")) (.number (-2))
      (.string ("ab")) (.number (-2)) rfl rfl).2 ("ab") (-2) (Or.inl ⟨rfl, rfl⟩)).2 ?_
    rintro ⟨n, hn⟩
    have h0 : (0 : ℚ) ≤ (n : ℚ) := Nat.cast_nonneg n
    rw [← hn] at h0
    norm_num at h0

/-! ## C1 — environment unwinding on error exits from calls.

`Interpreter::function_call` (interpreter.rs lines 317–345) pushes the fresh
child environment, but the `?` operators on argument and body evaluation
return *before* the line that restores `self.env`; an error therefore leaves
the interpreter inside the callee's frame. -/

set_option maxHeartbeats 4000000 in
/-- C1: the claim says that when a call's body evaluation errors, the
current environment is restored to the caller's pre-call environment before
the error propagates.  Running `function f() { 1 + 'a'; } f();` from the
initial state propagates the TypeError but leaves the current environment at
the callee frame (heap index 1, chain depth 2) instead of the caller's
global environment (index 0, depth 1): the restore in `function_call` is
skipped by the `?` on the body evaluation. -/
theorem c1_env_not_restored_on_error :
    (interpretAST 20 progFnErr InterpreterOptions.new initState).1.isTypeError = true
    ∧ (interpretAST 20 progFnErr InterpreterOptions.new initState).2.env = 1
    ∧ (interpretAST 20 progFnErr InterpreterOptions.new initState).2.envDepth = 2
    ∧ initState.env = 0 ∧ initState.envDepth = 1 := by
  refine ⟨?_, ?_, ?_, ?_, ?_⟩ <;> decide

/-! ## C3 — preview mode and persistent state.

Preview mode (`disable_calls` and `disable_decleration` both set) skips
declarations and calls, but `visit_assignment` checks no option at all: an
assignment expression in preview mode writes through to the persistent
global environment. -/

set_option maxHeartbeats 4000000 in
/-- C3: the claim says a preview run (`disable_calls` and
`disable_declaration` set) leaves the persistent state unchanged.  After a
non-preview `let x = 1;`, the preview input `x = 42;` succeeds and
overwrites the global binding of `x`: a subsequent non-preview `x;` yields
42 where it yielded 1 before the preview.  (`visit_assignment` never
consults the options.) -/
theorem c3_preview_assignment_mutates_state :
    interpretAST 10 progLetX InterpreterOptions.new initState = (.ok Value.none, stateX1)
    ∧ res_number (interpretAST 10 progUseX InterpreterOptions.new stateX1).1 = Option.some 1
    ∧ interpretAST 10 progAssignX InterpreterOptions.all stateX1 = (.ok (.number 42), stateX2)
    ∧ res_number (interpretAST 10 progUseX InterpreterOptions.new stateX2).1 = Option.some 42 := by
  refine ⟨rfl, by decide, rfl, by decide⟩

/-! ## C4 — scope/environment depth after successful evaluation.

`function_call` restores `self.env` to the *finishing* environment's parent,
which is the callee's captured environment — not the environment the caller
held at the call site.  Calling a closure whose captured environment differs
from the caller's therefore strands the interpreter in the closure's frame
even on a fully successful run. -/

set_option maxHeartbeats 4000000 in
unseal Rat.add in
/-- C4: the claim says that after every successful interpret call both the
scope chain and the environment chain are back at depth 1.  Running the
session `function make() { let n = 10; |x| x + n; }`, `let f = make();`,
`f(5);` — each interpret call successful, the last returning `15` — leaves
the scope chain at depth 1 but the environment at heap index 1 (the `make`
call frame, chain depth 2): `function_call` restored `self.env` to the
lambda frame's parent (its captured environment) instead of the caller's
global environment. -/
theorem c4_env_depth_after_successful_interpret :
    interpretAST 20 progMake InterpreterOptions.new initState = (.ok Value.none, stateMk)
    ∧ interpretAST 20 progLetF InterpreterOptions.new stateMk = (.ok Value.none, stateF)
    ∧ stateF.env = 0 ∧ stateF.envDepth = 1
    ∧ res_number (interpretAST 20 progCallF InterpreterOptions.new stateF).1 = Option.some 15
    ∧ (interpretAST 20 progCallF InterpreterOptions.new stateF).2.env = 1
    ∧ (interpretAST 20 progCallF InterpreterOptions.new stateF).2.envDepth = 2
    ∧ (interpretAST 20 progCallF InterpreterOptions.new stateF).2.scopeDepth = 1 := by
  refine ⟨rfl, rfl, rfl, by decide, by decide, by decide, by decide, by decide⟩

/-! ## C10 — arguments are evaluated in the callee's fresh environment.

`Interpreter::function_call` (interpreter.rs lines 317–345) sets `self.env`
to the fresh child of the captured environment *first* (line 324) and only
then walks the parameter/argument lists, evaluating every argument with
`self.visit` — i.e. against the callee's new environment, where parameters
bound by earlier arguments of the same call are already visible — and never
against the caller's environment at the call site. -/

set_option maxHeartbeats 1000000 in
/-- C10: calling a two-parameter function `(p, q)` with arguments
`[e, p]` first evaluates `e` in the fresh child of the captured environment
`c` (hypothesis `he` is stated against exactly that environment,
`mkChild s c` — not against the caller's `s`), binds `p` to its value `v`,
and then resolves the second argument `p` to that freshly bound parameter,
binding `q` to `v` as well; the body then runs in the child frame holding
`p ↦ v, q ↦ v`.  This holds for every caller state `s`, whatever its own
bindings for `p`. -/
theorem c10_args_in_callee_env (m : Nat) (s s₁ : State) (c : Nat) (p q : String)
    (e body : Node) (v : Value) (env₁ : Enviroment)
    (he : visit (m + 3) e (mkChild s c) = (.ok v, s₁))
    (hchild : s₁.heap[s₁.env]? = Option.some env₁) :
    function_call (m + 5) [e, .identifier p] [p, q] body c s
      = call_exit (visit (m + 4) body
          { s₁ with heap := s₁.heap.set s₁.env (defineEnv (defineEnv env₁ p v) q v) }) := by
  have hlt : s₁.env < s₁.heap.length := (List.getElem?_eq_some.mp hchild).1
  have hpos : 0 < s₁.heap.length := Nat.lt_of_le_of_lt (Nat.zero_le _) hlt
  obtain ⟨k, hk⟩ : ∃ k, s₁.heap.length = k + 1 :=
    Nat.exists_eq_succ_of_ne_zero (Nat.pos_iff_ne_zero.mp hpos)
  have hdef : env_define s₁.heap s₁.env p v
      = s₁.heap.set s₁.env (defineEnv env₁ p v) := by
    simp only [env_define, hchild, defineEnv]
  have hget2 : (s₁.heap.set s₁.env (defineEnv env₁ p v))[s₁.env]?
      = Option.some (defineEnv env₁ p v) :=
    List.getElem?_set_eq_of_lt _ hlt
  have hlen2 : (s₁.heap.set s₁.env (defineEnv env₁ p v)).length = k + 1 := by
    rw [List.length_set, hk]
  have hlook : env_look_up (s₁.heap.set s₁.env (defineEnv env₁ p v))
      (k + 1) s₁.env p false = Option.some v := by
    simp only [env_look_up, hget2]
    simp only [defineEnv, listGet_insert_self]
  have hdef2 : env_define (s₁.heap.set s₁.env (defineEnv env₁ p v)) s₁.env q v
      = s₁.heap.set s₁.env (defineEnv (defineEnv env₁ p v) q v) := by
    simp only [env_define, hget2]
    simp only [defineEnv, List.set_set]
  simp only [function_call, bind_params, he, hdef]
  simp only [visit, visit_expression, hlen2, hlook, hdef2, bind_params]

set_option maxHeartbeats 1000000 in
/-- C10 witness: `g(7, p)` for `function g(p, q) { q; }` called from the
initial state binds `q` to 7 — the second argument `p` resolved to the
parameter bound by the first argument — and the call returns 7. -/
theorem c10_witness :
    function_call 5 [.number 7, .identifier ("p")] [("p"), ("q")] (.identifier ("q")) 0 initState
      = call_exit (visit 4 (.identifier ("q"))
          { mkChild initState 0 with
            heap := (mkChild initState 0).heap.set (mkChild initState 0).env
              (defineEnv (defineEnv { values := [], enclosing_enviroment := Option.some 0 }
                ("p") (Value.number 7)) ("q") (Value.number 7)) })
    ∧ res_number (function_call 5 [.number 7, .identifier ("p")] [("p"), ("q")]
        (.identifier ("q")) 0 initState).1 = Option.some 7 := by
  constructor
  · exact c10_args_in_callee_env 0 initState (mkChild initState 0) 0 ("p") ("q")
      (.number 7) (.identifier ("q")) (.number 7)
      { values := [], enclosing_enviroment := Option.some 0 } rfl rfl
  · decide

end Neko
